import Mathlib

/-!
Shallow embedding of the Tally WebSocket session controller
(src/tally-ws-wrapper/src/TallyWebSocketImpl.cpp, class LwsWebSocketClient).

The transport driver (libwebsockets) is external: its success or failure at
context creation, URL parsing, connection start and frame writing is modelled
by boolean oracles, and its calls into the session (LWS_CALLBACK_* events) are
modelled as an event type. Externally visible actions of the session (state
assignments, callback invocations, transport writes, writable and close
requests) are recorded as an effect trace.
-/

namespace Tally

/-- Connection states, from TallyWebSocket.h. -/
inductive ConnectionState
  | Disconnected
  | Connecting
  | Connected
  | Disconnecting
  | Error
deriving DecidableEq, Repr

/-- Message types, from TallyWebSocket.h. -/
inductive MessageType
  | Text
  | Binary
deriving DecidableEq, Repr

/-- Error information, from TallyWebSocket.h. -/
structure WebSocketError where
  code : Int
  message : String
deriving DecidableEq, Repr

/-- Connection configuration, from TallyWebSocket.h, with its defaults. -/
structure WebSocketConfig where
  url : String := ""
  subprotocol : String := ""
  connectTimeoutMs : Int := 30000
  pingIntervalMs : Int := 30000
  autoReconnect : Bool := false
  reconnectDelayMs : Int := 5000
  maxReconnectAttempts : Int := 5
deriving DecidableEq, Repr

/-- The LWS_PRE padding libwebsockets requires in front of outbound payloads.
Its numeric value is platform-defined in the libwebsockets headers; the claims
do not depend on it, only on the buffer layout pad ++ payload. -/
def LWS_PRE : Nat := 16

/-- A queued outbound message: byte buffer (LWS_PRE zero padding followed by
the payload, as built by SendText and SendBinary) plus frame kind. -/
structure QueuedMessage where
  data : List Nat
  type : MessageType
deriving DecidableEq, Repr

/-- Observable side effects of the session on its environment. -/
inductive Effect
  | assignState (s : ConnectionState)
  | stateCb (s : ConnectionState) (err : Option WebSocketError)
  | msgCb (payload : List Nat) (kind : MessageType)
  | write (payload : List Nat) (kind : MessageType)
  | requestWritable
  | requestClose (code : Int) (reason : List Nat)
deriving DecidableEq, Repr

/-- The mutable fields of LwsWebSocketClient. The opaque pointers m_wsi and
m_context are modelled by whether they are non-null; the stored callbacks by
whether a callback is registered. -/
structure Client where
  state : ConnectionState
  sendQueue : List QueuedMessage
  wsi : Bool
  context : Bool
  hasStateCb : Bool
  hasMsgCb : Bool
  config : WebSocketConfig
deriving DecidableEq, Repr

/-- A freshly constructed client: Disconnected, empty queue, no transport
context or connection, no callbacks registered. -/
def initialClient : Client :=
  ⟨ConnectionState.Disconnected, [], false, false, false, false, {}⟩

/-- Oracle for the three fallible transport-driver calls made by Connect:
lws_create_context, lws_parse_uri, lws_client_connect_via_info. -/
structure TransportEnv where
  createContextOk : Bool
  parseUriOk : Bool
  connectOk : Bool
deriving DecidableEq, Repr

/-- LwsWebSocketClient::SetState: assigns m_state, then invokes the registered
state callback (if any) with the new state and optional error. -/
def SetState (c : Client) (newState : ConnectionState)
    (error : Option WebSocketError) : Client × List Effect :=
  let c := { c with state := newState }
  if c.hasStateCb then
    (c, [Effect.assignState newState, Effect.stateCb newState error])
  else
    (c, [Effect.assignState newState])

/-- LwsWebSocketClient::Cleanup: clears m_wsi, destroys m_context, and assigns
m_state = Disconnected directly (no callback invocation). -/
def Cleanup (c : Client) : Client × List Effect :=
  ({ c with wsi := false, context := false, state := ConnectionState.Disconnected },
   [Effect.assignState ConnectionState.Disconnected])

/-- LwsWebSocketClient::Connect: rejected unless Disconnected; otherwise moves
to Connecting, creates the context, parses the URL and starts the connection,
with SetState Error (and, after context creation, Cleanup) on each failure.
Returns (result, client, effects). -/
def Connect (c : Client) (env : TransportEnv) (config : WebSocketConfig) :
    Bool × Client × List Effect :=
  if c.state ≠ ConnectionState.Disconnected then
    (false, c, [])
  else
    let c := { c with config := config }
    let r1 := SetState c ConnectionState.Connecting none
    if ¬ env.createContextOk then
      let r2 := SetState r1.1 ConnectionState.Error
        (some ⟨-1, "Failed to create lws context"⟩)
      (false, r2.1, r1.2 ++ r2.2)
    else
      let c1 := { r1.1 with context := true }
      if ¬ env.parseUriOk then
        let r2 := SetState c1 ConnectionState.Error
          (some ⟨-1, "Failed to parse URL"⟩)
        let r3 := Cleanup r2.1
        (false, r3.1, r1.2 ++ r2.2 ++ r3.2)
      else if ¬ env.connectOk then
        let r2 := SetState c1 ConnectionState.Error
          (some ⟨-1, "Failed to create client connection"⟩)
        let r3 := Cleanup r2.1
        (false, r3.1, r1.2 ++ r2.2 ++ r3.2)
      else
        (true, { c1 with wsi := true }, r1.2)

/-- LwsWebSocketClient::Disconnect: no-op when Disconnected; otherwise moves to
Disconnecting and, when a live connection handle exists, requests a close with
the given code and reason and one writable notification. -/
def Disconnect (c : Client) (code : Int) (reason : List Nat) :
    Client × List Effect :=
  if c.state = ConnectionState.Disconnected then
    (c, [])
  else
    let r1 := SetState c ConnectionState.Disconnecting none
    if r1.1.wsi then
      (r1.1, r1.2 ++ [Effect.requestClose code reason, Effect.requestWritable])
    else
      (r1.1, r1.2)

/-- LwsWebSocketClient::IsConnected. -/
def IsConnected (c : Client) : Bool :=
  c.state = ConnectionState.Connected

/-- LwsWebSocketClient::GetState. -/
def GetState (c : Client) : ConnectionState :=
  c.state

/-- LwsWebSocketClient::SendText: rejected unless Connected; otherwise appends
a Text message (LWS_PRE padding plus the UTF-8 bytes) to the send queue and,
when a live handle exists, requests a writable notification. -/
def SendText (c : Client) (message : List Nat) : Bool × Client × List Effect :=
  if ¬ IsConnected c then
    (false, c, [])
  else
    let msg : QueuedMessage :=
      ⟨List.replicate LWS_PRE 0 ++ message, MessageType.Text⟩
    let c := { c with sendQueue := c.sendQueue ++ [msg] }
    if c.wsi then
      (true, c, [Effect.requestWritable])
    else
      (true, c, [])

/-- LwsWebSocketClient::SendBinary: as SendText but with a Binary frame. -/
def SendBinary (c : Client) (data : List Nat) : Bool × Client × List Effect :=
  if ¬ IsConnected c then
    (false, c, [])
  else
    let msg : QueuedMessage :=
      ⟨List.replicate LWS_PRE 0 ++ data, MessageType.Binary⟩
    let c := { c with sendQueue := c.sendQueue ++ [msg] }
    if c.wsi then
      (true, c, [Effect.requestWritable])
    else
      (true, c, [])

/-- LwsWebSocketClient::ProcessSendQueue: returns when the queue is empty or no
live handle exists; otherwise pops exactly one message, writes its payload
(past the LWS_PRE padding) with the matching frame kind, and when the write
succeeded and messages remain, requests another writable notification.
writeOk models whether lws_write returned non-negative. -/
def ProcessSendQueue (c : Client) (writeOk : Bool) : Client × List Effect :=
  match c.sendQueue with
  | [] => (c, [])
  | msg :: rest =>
    if ¬ c.wsi then
      (c, [])
    else
      let c := { c with sendQueue := rest }
      let effs := [Effect.write (msg.data.drop LWS_PRE) msg.type]
      if ¬ writeOk then
        (c, effs)
      else if rest ≠ [] ∧ c.wsi then
        (c, effs ++ [Effect.requestWritable])
      else
        (c, effs)

/-- Transport-driver events delivered to LwsWebSocketClient::LwsCallback. -/
inductive LwsEvent
  | established
  | receive (payload : List Nat) (isBinary : Bool)
  | writable (writeOk : Bool)
  | connectionError (diag : Option String)
  | closed
deriving DecidableEq, Repr

/-- LwsWebSocketClient::LwsCallback, for a session instance recovered from the
context user pointer: Established stores the handle and moves to Connected;
Receive classifies the frame and invokes the message callback; Writable runs
ProcessSendQueue; connection error moves to Error and clears the handle;
Closed clears the handle and moves to Disconnected. -/
def LwsCallback (c : Client) (e : LwsEvent) : Client × List Effect :=
  match e with
  | LwsEvent.established =>
      let c := { c with wsi := true }
      SetState c ConnectionState.Connected none
  | LwsEvent.receive payload isBinary =>
      if c.hasMsgCb then
        (c, [Effect.msgCb payload
              (if isBinary then MessageType.Binary else MessageType.Text)])
      else
        (c, [])
  | LwsEvent.writable writeOk =>
      ProcessSendQueue c writeOk
  | LwsEvent.connectionError diag =>
      let err : WebSocketError := ⟨-1, diag.getD "Connection error"⟩
      let r1 := SetState c ConnectionState.Error (some err)
      ({ r1.1 with wsi := false }, r1.2)
  | LwsEvent.closed =>
      let c := { c with wsi := false }
      SetState c ConnectionState.Disconnected none

/-- One session-level operation: a caller-facing call or a transport event. -/
inductive Op
  | connect (env : TransportEnv) (cfg : WebSocketConfig)
  | disconnect (code : Int) (reason : List Nat)
  | sendText (message : List Nat)
  | sendBinary (data : List Nat)
  | lwsEvent (e : LwsEvent)
deriving DecidableEq, Repr

/-- Apply one operation to the client, dropping boolean results. -/
def step (c : Client) (op : Op) : Client × List Effect :=
  match op with
  | Op.connect env cfg => ((Connect c env cfg).2.1, (Connect c env cfg).2.2)
  | Op.disconnect code reason => Disconnect c code reason
  | Op.sendText message => ((SendText c message).2.1, (SendText c message).2.2)
  | Op.sendBinary data => ((SendBinary c data).2.1, (SendBinary c data).2.2)
  | Op.lwsEvent e => LwsCallback c e

/-- Run a sequence of operations. -/
def run : Client → List Op → Client
  | c, [] => c
  | c, op :: ops => run (step c op).1 ops

/-- Concatenated effect trace of a sequence of operations. -/
def runEffects : Client → List Op → List Effect
  | _, [] => []
  | c, op :: ops => (step c op).2 ++ runEffects (step c op).1 ops

/-- Payload and kind pairs handed to the transport write call, in trace order. -/
def writesOf : List Effect → List (List Nat × MessageType)
  | [] => []
  | Effect.write p k :: es => (p, k) :: writesOf es
  | _ :: es => writesOf es

/-- Payload and kind pairs of the messages currently in the send queue. -/
def queuedPayloads (c : Client) : List (List Nat × MessageType) :=
  c.sendQueue.map (fun m => (m.data.drop LWS_PRE, m.type))

/-- The payloads a single operation queues, i.e. of an accepted SendText or
SendBinary call; empty for every other or rejected operation. -/
def sendAccepted (c : Client) (op : Op) : List (List Nat × MessageType) :=
  match op with
  | Op.sendText m => if (SendText c m).1 then [(m, MessageType.Text)] else []
  | Op.sendBinary d => if (SendBinary c d).1 then [(d, MessageType.Binary)] else []
  | _ => []

/-- Payloads of all accepted SendText and SendBinary calls along a run. -/
def acceptedSends : Client → List Op → List (List Nat × MessageType)
  | _, [] => []
  | c, op :: ops => sendAccepted c op ++ acceptedSends (step c op).1 ops

/-- The sequence of states assigned to m_state within an effect trace. -/
def assignedStates : List Effect → List ConnectionState
  | [] => []
  | Effect.assignState s :: es => s :: assignedStates es
  | _ :: es => assignedStates es

/-- Consecutive transition pairs starting from a given state. -/
def transPairs : ConnectionState → List ConnectionState → List (ConnectionState × ConnectionState)
  | _, [] => []
  | s, t :: ts => (s, t) :: transPairs t ts

/-- The state transitions performed by one operation from a given client. -/
def stepTransitions (c : Client) (op : Op) : List (ConnectionState × ConnectionState) :=
  transPairs c.state (assignedStates (step c op).2)

/-- The transition relation claimed by the spec: the listed lifecycle edges,
plus moves to Error or Disconnected (allowed from any state for transport
failure and close events). -/
def claimAllowedC2 : ConnectionState → ConnectionState → Bool
  | _, ConnectionState.Error => true
  | _, ConnectionState.Disconnected => true
  | ConnectionState.Disconnected, ConnectionState.Connecting => true
  | ConnectionState.Connecting, ConnectionState.Connected => true
  | ConnectionState.Connected, ConnectionState.Disconnecting => true
  | _, _ => false

/-- The transition relation the code actually follows: the claimed one plus
a move from any non-Disconnected state to Disconnecting, which Disconnect
performs from Connecting and Error as well as from Connected. -/
def amendedAllowedC2 (s t : ConnectionState) : Bool :=
  claimAllowedC2 s t ||
    (decide (s ≠ ConnectionState.Disconnected) &&
     decide (t = ConnectionState.Disconnecting))

/-- All transition pairs in a list are allowed by the amended relation. -/
def allAllowedC2 (l : List (ConnectionState × ConnectionState)) : Bool :=
  l.all (fun p => amendedAllowedC2 p.1 p.2)

/-- Transport environment in which every driver call succeeds. -/
def envOK : TransportEnv := ⟨true, true, true⟩

/-- Transport environment in which lws_parse_uri fails. -/
def envParseFail : TransportEnv := ⟨true, false, true⟩

/-- Transport environment in which lws_client_connect_via_info fails. -/
def envConnFail : TransportEnv := ⟨true, true, false⟩

/-- Transport environment in which lws_create_context fails. -/
def envCtxFail : TransportEnv := ⟨false, true, true⟩

/-- A default configuration value. -/
def cfg0 : WebSocketConfig := {}

/-- A client mid-connect, with state callback registered: reached from
initialClient (with the callback registered) by a successful Connect. -/
def clientConnecting : Client :=
  ⟨ConnectionState.Connecting, [], true, true, true, false, cfg0⟩

/-- A connected client with state callback registered. -/
def clientConnected : Client :=
  ⟨ConnectionState.Connected, [], true, true, true, false, cfg0⟩

/-- A client in the Error state with no live handle and no context, as left by
a Connect whose context creation failed; state callback registered. -/
def clientError : Client :=
  ⟨ConnectionState.Error, [], false, false, true, false, cfg0⟩

/-- A disconnected client with the state callback registered. -/
def clientDisconnectedCb : Client :=
  ⟨ConnectionState.Disconnected, [], false, false, true, false, cfg0⟩

/-- The client record left behind by a Connect attempt that failed after
context creation (URL parse failure or connection start failure):
configuration stored, then everything reset by Cleanup. -/
def connectFailResult (c : Client) (cfg : WebSocketConfig) : Client :=
  { c with
    config := cfg
    state := ConnectionState.Disconnected
    wsi := false
    context := false }

/-! ### Helper lemmas about the effect-trace projections -/

theorem writesOf_append (a b : List Effect) :
    writesOf (a ++ b) = writesOf a ++ writesOf b := by
  induction a with
  | nil => rfl
  | cons e es ih => cases e <;> simp [writesOf, ih]

theorem assignedStates_append (a b : List Effect) :
    assignedStates (a ++ b) = assignedStates a ++ assignedStates b := by
  induction a with
  | nil => rfl
  | cons e es ih => cases e <;> simp [assignedStates, ih]

theorem SetState_client (c : Client) (s : ConnectionState)
    (err : Option WebSocketError) :
    (SetState c s err).1 = { c with state := s } := by
  unfold SetState
  dsimp only
  split <;> rfl

theorem SetState_effects (c : Client) (s : ConnectionState)
    (err : Option WebSocketError) :
    (SetState c s err).2 =
      if c.hasStateCb then [Effect.assignState s, Effect.stateCb s err]
      else [Effect.assignState s] := by
  unfold SetState
  dsimp only
  split <;> simp_all

theorem writesOf_SetState (c : Client) (s : ConnectionState)
    (err : Option WebSocketError) :
    writesOf (SetState c s err).2 = [] := by
  rw [SetState_effects]
  split <;> rfl

theorem assignedStates_SetState (c : Client) (s : ConnectionState)
    (err : Option WebSocketError) :
    assignedStates (SetState c s err).2 = [s] := by
  rw [SetState_effects]
  split <;> rfl

theorem writesOf_Cleanup (c : Client) : writesOf (Cleanup c).2 = [] := rfl

theorem assignedStates_Cleanup (c : Client) :
    assignedStates (Cleanup c).2 = [ConnectionState.Disconnected] := rfl

theorem drop_pre (l : List Nat) :
    (List.replicate LWS_PRE 0 ++ l).drop LWS_PRE = l := by
  have h : LWS_PRE = (List.replicate LWS_PRE (0 : Nat)).length := by simp
  conv_lhs => rw [h]
  exact List.drop_left _ _

/-! ### Per-operation lemmas about the send queue and the write trace -/

theorem Connect_queue_writes (c : Client) (env : TransportEnv)
    (cfg : WebSocketConfig) :
    (Connect c env cfg).2.1.sendQueue = c.sendQueue ∧
      writesOf (Connect c env cfg).2.2 = [] := by
  unfold Connect
  repeat' split
  all_goals
    simp [SetState_client, Cleanup, writesOf_append, writesOf_SetState, writesOf]

theorem Disconnect_queue_writes (c : Client) (code : Int) (reason : List Nat) :
    (Disconnect c code reason).1.sendQueue = c.sendQueue ∧
      writesOf (Disconnect c code reason).2 = [] := by
  unfold Disconnect
  by_cases hs : c.state = ConnectionState.Disconnected
  · simp [hs, writesOf]
  · by_cases hw : c.wsi <;>
      simp [hs, hw, SetState_client, writesOf_append, writesOf_SetState, writesOf]

theorem ProcessSendQueue_queue_writes (c : Client) (w : Bool) :
    writesOf (ProcessSendQueue c w).2 ++ queuedPayloads (ProcessSendQueue c w).1 =
      queuedPayloads c := by
  rcases hq : c.sendQueue with _ | ⟨msg, rest⟩
  · unfold ProcessSendQueue
    rw [hq]
    simp [writesOf]
  · unfold ProcessSendQueue
    rw [hq]
    by_cases hw : c.wsi
    · by_cases hwo : w
      · by_cases hr : rest = [] <;>
          simp [hw, hwo, hr, writesOf, writesOf_append, queuedPayloads, hq]
      · simp [hw, hwo, writesOf, queuedPayloads, hq]
    · simp [hw, writesOf, queuedPayloads, hq]

theorem step_queue (c : Client) (op : Op) :
    writesOf (step c op).2 ++ queuedPayloads (step c op).1 =
      queuedPayloads c ++ sendAccepted c op := by
  cases op with
  | connect env cfg =>
      have h := Connect_queue_writes c env cfg
      simp [step, sendAccepted, queuedPayloads, h.1, h.2]
  | disconnect code reason =>
      have h := Disconnect_queue_writes c code reason
      simp [step, sendAccepted, queuedPayloads, h.1, h.2]
  | sendText m =>
      by_cases h : IsConnected c
      · by_cases hw : c.wsi <;>
          simp [step, SendText, sendAccepted, h, hw, writesOf,
            queuedPayloads, drop_pre]
      · simp [step, SendText, sendAccepted, h, writesOf]
  | sendBinary d =>
      by_cases h : IsConnected c
      · by_cases hw : c.wsi <;>
          simp [step, SendBinary, sendAccepted, h, hw, writesOf,
            queuedPayloads, drop_pre]
      · simp [step, SendBinary, sendAccepted, h, writesOf]
  | lwsEvent e =>
      cases e with
      | established =>
          simp [step, LwsCallback, sendAccepted, queuedPayloads,
            SetState_client, writesOf_SetState]
      | receive p b =>
          by_cases hm : c.hasMsgCb <;>
            simp [step, LwsCallback, sendAccepted, hm, writesOf]
      | writable w =>
          simp [step, LwsCallback, sendAccepted, ProcessSendQueue_queue_writes]
      | connectionError diag =>
          simp [step, LwsCallback, sendAccepted, queuedPayloads,
            SetState_client, writesOf_SetState]
      | closed =>
          simp [step, LwsCallback, sendAccepted, queuedPayloads,
            SetState_client, writesOf_SetState]

theorem queue_fifo_invariant (ops : List Op) : ∀ c : Client,
    writesOf (runEffects c ops) ++ queuedPayloads (run c ops) =
      queuedPayloads c ++ acceptedSends c ops := by
  induction ops with
  | nil => intro c; simp [runEffects, run, acceptedSends, writesOf]
  | cons op ops ih =>
      intro c
      simp only [runEffects, run, acceptedSends, writesOf_append, List.append_assoc]
      rw [ih (step c op).1, ← List.append_assoc, step_queue, List.append_assoc]

theorem step_writes_length (c : Client) (op : Op) :
    (writesOf (step c op).2).length ≤ 1 := by
  cases op with
  | connect env cfg => simp [step, (Connect_queue_writes c env cfg).2]
  | disconnect code reason => simp [step, (Disconnect_queue_writes c code reason).2]
  | sendText m =>
      by_cases h : IsConnected c
      · by_cases hw : c.wsi <;>
          simp [step, SendText, h, hw, writesOf]
      · simp [step, SendText, h, writesOf]
  | sendBinary d =>
      by_cases h : IsConnected c
      · by_cases hw : c.wsi <;>
          simp [step, SendBinary, h, hw, writesOf]
      · simp [step, SendBinary, h, writesOf]
  | lwsEvent e =>
      cases e with
      | established => simp [step, LwsCallback, writesOf_SetState]
      | receive p b =>
          by_cases hm : c.hasMsgCb <;> simp [step, LwsCallback, hm, writesOf]
      | writable w =>
          rcases hq : c.sendQueue with _ | ⟨msg, rest⟩
          · unfold step LwsCallback ProcessSendQueue
            rw [hq]
            simp [writesOf]
          · unfold step LwsCallback ProcessSendQueue
            rw [hq]
            by_cases hw : c.wsi
            · by_cases hwo : w
              · by_cases hr : rest = [] <;>
                  simp [hw, hwo, hr, writesOf, writesOf_append]
              · simp [hw, hwo, writesOf]
            · simp [hw, writesOf]
      | connectionError diag => simp [step, LwsCallback, writesOf_SetState]
      | closed => simp [step, LwsCallback, writesOf_SetState]

theorem step_pop_le (c : Client) (op : Op) :
    c.sendQueue.length ≤ (step c op).1.sendQueue.length + 1 := by
  cases op with
  | connect env cfg => simp [step, (Connect_queue_writes c env cfg).1]
  | disconnect code reason => simp [step, (Disconnect_queue_writes c code reason).1]
  | sendText m =>
      by_cases h : IsConnected c
      · by_cases hw : c.wsi <;>
          simp [step, SendText, h, hw] <;> omega
      · simp [step, SendText, h]
  | sendBinary d =>
      by_cases h : IsConnected c
      · by_cases hw : c.wsi <;>
          simp [step, SendBinary, h, hw] <;> omega
      · simp [step, SendBinary, h]
  | lwsEvent e =>
      cases e with
      | established => simp [step, LwsCallback, SetState_client]
      | receive p b =>
          by_cases hm : c.hasMsgCb <;> simp [step, LwsCallback, hm]
      | writable w =>
          rcases hq : c.sendQueue with _ | ⟨msg, rest⟩
          · unfold step LwsCallback ProcessSendQueue
            rw [hq]
            simp [hq]
          · unfold step LwsCallback ProcessSendQueue
            rw [hq]
            by_cases hw : c.wsi
            · by_cases hwo : w
              · by_cases hr : rest = [] <;>
                  simp [hw, hwo, hr, hq]
              · simp [hw, hwo, hq]
            · simp [hw, hq]
      | connectionError diag => simp [step, LwsCallback, SetState_client]
      | closed => simp [step, LwsCallback, SetState_client]

/-! ### Lemmas about state transitions -/

theorem claimAllowedC2_error (s : ConnectionState) :
    claimAllowedC2 s ConnectionState.Error = true := by
  cases s <;> rfl

theorem claimAllowedC2_disconnected (s : ConnectionState) :
    claimAllowedC2 s ConnectionState.Disconnected = true := by
  cases s <;> rfl

theorem amendedAllowedC2_error (s : ConnectionState) :
    amendedAllowedC2 s ConnectionState.Error = true := by
  simp [amendedAllowedC2, claimAllowedC2_error]

theorem amendedAllowedC2_disconnected (s : ConnectionState) :
    amendedAllowedC2 s ConnectionState.Disconnected = true := by
  simp [amendedAllowedC2, claimAllowedC2_disconnected]

theorem amendedAllowedC2_disconnecting (s : ConnectionState)
    (h : s ≠ ConnectionState.Disconnected) :
    amendedAllowedC2 s ConnectionState.Disconnecting = true := by
  cases s <;> simp_all [amendedAllowedC2, claimAllowedC2]

theorem assignedStates_ProcessSendQueue (c : Client) (w : Bool) :
    assignedStates (ProcessSendQueue c w).2 = [] := by
  rcases hq : c.sendQueue with _ | ⟨msg, rest⟩
  · unfold ProcessSendQueue
    rw [hq]
    rfl
  · unfold ProcessSendQueue
    rw [hq]
    by_cases hw : c.wsi
    · by_cases hwo : w
      · by_cases hr : rest = [] <;>
          simp [hw, hwo, hr, assignedStates, assignedStates_append]
      · simp [hw, hwo, assignedStates]
    · simp [hw, assignedStates]

theorem Connect_fail_client (c : Client) (env : TransportEnv) (cfg : WebSocketConfig)
    (h1 : c.state = ConnectionState.Disconnected)
    (h2 : env.createContextOk = true)
    (h3 : env.parseUriOk = false ∨ env.connectOk = false) :
    (Connect c env cfg).1 = false ∧
    (Connect c env cfg).2.1 = connectFailResult c cfg ∧
    ConnectionState.Error ∈ assignedStates (Connect c env cfg).2.2 := by
  rcases h3 with h3 | h3
  · simp [Connect, connectFailResult, h1, h2, h3, SetState_client, Cleanup,
      assignedStates_append, assignedStates_SetState, assignedStates_Cleanup]
  · by_cases hp : env.parseUriOk <;>
      simp [Connect, connectFailResult, h1, h2, h3, hp, SetState_client, Cleanup,
        assignedStates_append, assignedStates_SetState, assignedStates_Cleanup]

theorem Connect_from_disconnected_ok (c : Client) (cfg : WebSocketConfig)
    (h : c.state = ConnectionState.Disconnected) :
    (Connect c envOK cfg).1 = true := by
  simp [Connect, envOK, h]

/-! ### Claims -/

/-- Claim C1: for every sequence of operations, the payloads handed to the
transport write call, followed by the payloads still queued, equal the
initially queued payloads followed by the payloads of the accepted SendText
and SendBinary calls in order; so writes happen in exactly FIFO order,
one queued message per write, never reordered or coalesced. Moreover every
single operation (in particular every writable event) emits at most one
transport write and removes at most one message from the queue. -/
theorem tally_C1_queue_fifo :
    (∀ (c : Client) (ops : List Op),
      writesOf (runEffects c ops) ++ queuedPayloads (run c ops) =
        queuedPayloads c ++ acceptedSends c ops) ∧
    (∀ (c : Client) (op : Op),
      (writesOf (step c op).2).length ≤ 1 ∧
      c.sendQueue.length ≤ (step c op).1.sendQueue.length + 1) :=
  ⟨fun c ops => queue_fifo_invariant ops c,
   fun c op => ⟨step_writes_length c op, step_pop_le c op⟩⟩

/-- Claim C2, counterexample: a reachable session in state Connecting (after a
successful Connect from the initial client) moves to Disconnecting when
Disconnect is called, a transition the claimed relation does not allow. -/
theorem tally_C2_counterexample :
    (run initialClient [Op.connect envOK cfg0]).state = ConnectionState.Connecting ∧
    stepTransitions (run initialClient [Op.connect envOK cfg0])
        (Op.disconnect 1000 []) =
      [(ConnectionState.Connecting, ConnectionState.Disconnecting)] ∧
    claimAllowedC2 ConnectionState.Connecting ConnectionState.Disconnecting = false := by
  decide

/-- Claim C2, amended: under the transport-driver contract that the
Established event only arrives while Connecting, every state transition of
every operation lies in the claimed relation extended with the transition
from any non-Disconnected state to Disconnecting, which Disconnect performs
from Connecting and Error as well as from Connected. -/
theorem tally_C2_amended_transitions (c : Client) (op : Op)
    (h : op = Op.lwsEvent LwsEvent.established →
      c.state = ConnectionState.Connecting) :
    allAllowedC2 (stepTransitions c op) = true := by
  cases op with
  | connect env cfg =>
      by_cases hs : c.state = ConnectionState.Disconnected
      · by_cases h1 : env.createContextOk <;> by_cases h2 : env.parseUriOk <;>
          by_cases h3 : env.connectOk <;>
          simp [stepTransitions, step, Connect, hs, h1, h2, h3,
            assignedStates_append, assignedStates_SetState, assignedStates_Cleanup,
            transPairs, allAllowedC2, amendedAllowedC2, claimAllowedC2, assignedStates]
      · simp [stepTransitions, step, Connect, hs, assignedStates, transPairs,
          allAllowedC2]
  | disconnect code reason =>
      by_cases hs : c.state = ConnectionState.Disconnected
      · simp [stepTransitions, step, Disconnect, hs, assignedStates, transPairs,
          allAllowedC2]
      · by_cases hw : c.wsi <;>
          simp [stepTransitions, step, Disconnect, hs, hw, SetState_client,
            assignedStates_append, assignedStates_SetState, assignedStates,
            transPairs, allAllowedC2, amendedAllowedC2_disconnecting c.state hs]
  | sendText m =>
      by_cases hc : IsConnected c
      · by_cases hw : c.wsi <;>
          simp [stepTransitions, step, SendText, hc, hw, assignedStates,
            transPairs, allAllowedC2]
      · simp [stepTransitions, step, SendText, hc, assignedStates, transPairs,
          allAllowedC2]
  | sendBinary d =>
      by_cases hc : IsConnected c
      · by_cases hw : c.wsi <;>
          simp [stepTransitions, step, SendBinary, hc, hw, assignedStates,
            transPairs, allAllowedC2]
      · simp [stepTransitions, step, SendBinary, hc, assignedStates, transPairs,
          allAllowedC2]
  | lwsEvent e =>
      cases e with
      | established =>
          have hc : c.state = ConnectionState.Connecting := h rfl
          simp [stepTransitions, step, LwsCallback, assignedStates_SetState, hc,
            transPairs, allAllowedC2, amendedAllowedC2, claimAllowedC2]
      | receive p b =>
          by_cases hm : c.hasMsgCb <;>
            simp [stepTransitions, step, LwsCallback, hm, assignedStates,
              transPairs, allAllowedC2]
      | writable w =>
          simp [stepTransitions, step, LwsCallback,
            assignedStates_ProcessSendQueue, transPairs, allAllowedC2]
      | connectionError diag =>
          simp [stepTransitions, step, LwsCallback, assignedStates_append,
            assignedStates_SetState, assignedStates, transPairs, allAllowedC2,
            amendedAllowedC2_error]
      | closed =>
          simp [stepTransitions, step, LwsCallback, assignedStates_SetState,
            assignedStates, transPairs, allAllowedC2, amendedAllowedC2_disconnected]

/-- Witness for the amended claim C2, at a client in state Connecting
receiving the Established event. -/
theorem tally_C2_witness :
    allAllowedC2 (stepTransitions clientConnecting
      (Op.lwsEvent LwsEvent.established)) = true :=
  tally_C2_amended_transitions clientConnecting
    (Op.lwsEvent LwsEvent.established) (fun _ => rfl)

/-- Claim C3: when the state is not Disconnected, Connect returns false and
leaves the whole client, in particular its connection state, unchanged. -/
theorem tally_C3_connect_rejected (c : Client) (env : TransportEnv)
    (cfg : WebSocketConfig)
    (h : c.state ≠ ConnectionState.Disconnected) :
    (Connect c env cfg).1 = false ∧ (Connect c env cfg).2.1 = c ∧
      (Connect c env cfg).2.1.state = c.state := by
  simp [Connect, h]

/-- Witness for claim C3, at a Connected client: a second Connect without an
intervening return to Disconnected returns false and changes nothing. -/
theorem tally_C3_witness :
    (Connect clientConnected envOK cfg0).1 = false ∧
    (Connect clientConnected envOK cfg0).2.1 = clientConnected ∧
    (Connect clientConnected envOK cfg0).2.1.state = clientConnected.state :=
  tally_C3_connect_rejected clientConnected envOK cfg0 (by decide)

/-- Claim C4, counterexample: a Connect from Disconnected whose URL parse
fails returns false, but the observable state after the call is Disconnected,
not Error (Cleanup resets the transient Error state). -/
theorem tally_C4_counterexample :
    (Connect initialClient envParseFail cfg0).1 = false ∧
    (Connect initialClient envParseFail cfg0).2.1.state =
      ConnectionState.Disconnected ∧
    ¬ (Connect initialClient envParseFail cfg0).2.1.state =
      ConnectionState.Error := by
  decide

/-- Claim C4, amended: a Connect from Disconnected whose URL parse fails or
whose connection start fails returns false; during the call the state passes
through Error (so the Error transition is observable via the state callback),
but Cleanup then resets it, so the state after the call is Disconnected. -/
theorem tally_C4_amended_connect_failure (c : Client) (env : TransportEnv)
    (cfg : WebSocketConfig)
    (h1 : c.state = ConnectionState.Disconnected)
    (h2 : env.createContextOk = true)
    (h3 : env.parseUriOk = false ∨ env.connectOk = false) :
    (Connect c env cfg).1 = false ∧
    ConnectionState.Error ∈ assignedStates (Connect c env cfg).2.2 ∧
    (Connect c env cfg).2.1.state = ConnectionState.Disconnected := by
  have h := Connect_fail_client c env cfg h1 h2 h3
  refine ⟨h.1, h.2.2, ?_⟩
  rw [h.2.1]
  rfl

/-- Witness for the amended claim C4, at the initial client with a failing
URL parse. -/
theorem tally_C4_witness :
    (Connect initialClient envParseFail cfg0).1 = false ∧
    ConnectionState.Error ∈
      assignedStates (Connect initialClient envParseFail cfg0).2.2 ∧
    (Connect initialClient envParseFail cfg0).2.1.state =
      ConnectionState.Disconnected :=
  tally_C4_amended_connect_failure initialClient envParseFail cfg0
    rfl rfl (Or.inl rfl)

/-- Claim C5: when the state is not Connected, SendText and SendBinary return
false and have no side effect: client unchanged (so the queue length is
unchanged) and no effects emitted (so no writable notification requested). -/
theorem tally_C5_send_rejected (c : Client) (message data : List Nat)
    (h : c.state ≠ ConnectionState.Connected) :
    (SendText c message).1 = false ∧ (SendText c message).2.1 = c ∧
      (SendText c message).2.2 = [] ∧
    (SendBinary c data).1 = false ∧ (SendBinary c data).2.1 = c ∧
      (SendBinary c data).2.2 = [] := by
  have hi : IsConnected c = false := by simp [IsConnected, h]
  simp [SendText, SendBinary, hi]

/-- Witness for claim C5, at a client in the Error state. -/
theorem tally_C5_witness :
    (SendText clientError [104, 105]).1 = false ∧
    (SendText clientError [104, 105]).2.1 = clientError ∧
    (SendText clientError [104, 105]).2.2 = [] ∧
    (SendBinary clientError [0, 255]).1 = false ∧
    (SendBinary clientError [0, 255]).2.1 = clientError ∧
    (SendBinary clientError [0, 255]).2.2 = [] :=
  tally_C5_send_rejected clientError [104, 105] [0, 255] (by decide)

/-- Claim C6, counterexample: on the Established event the session stores the
transport handle and moves to Connected, but emits no writable-notification
request, contrary to the claim. -/
theorem tally_C6_counterexample :
    (LwsCallback clientConnecting LwsEvent.established).1.wsi = true ∧
    (LwsCallback clientConnecting LwsEvent.established).1.state =
      ConnectionState.Connected ∧
    Effect.requestWritable ∉
      (LwsCallback clientConnecting LwsEvent.established).2 := by
  decide

/-- Claim C6, amended: on the Established event the session stores the live
transport handle and transitions to Connected, but requests no initial
writable notification; writable notifications are only requested by the send
calls and Disconnect. -/
theorem tally_C6_amended_established (c : Client) :
    (LwsCallback c LwsEvent.established).1.wsi = true ∧
    (LwsCallback c LwsEvent.established).1.state = ConnectionState.Connected ∧
    Effect.requestWritable ∉ (LwsCallback c LwsEvent.established).2 := by
  refine ⟨?_, ?_, ?_⟩
  · simp [LwsCallback, SetState_client]
  · simp [LwsCallback, SetState_client]
  · simp only [LwsCallback, SetState_effects]
    split <;> simp

/-- Claim C7: while Connected, SendText with the empty string returns true and
appends exactly one zero-byte Text message (only the LWS_PRE padding, no
payload bytes) to the send queue, growing it by one. -/
theorem tally_C7_send_empty_text (c : Client)
    (h : c.state = ConnectionState.Connected) :
    (SendText c []).1 = true ∧
    (SendText c []).2.1.sendQueue =
      c.sendQueue ++ [⟨List.replicate LWS_PRE 0, MessageType.Text⟩] ∧
    (SendText c []).2.1.sendQueue.length = c.sendQueue.length + 1 := by
  have hi : IsConnected c = true := by simp [IsConnected, h]
  by_cases hw : c.wsi <;> simp [SendText, hi, hw]

/-- Witness for claim C7, at a Connected client with an empty queue. -/
theorem tally_C7_witness :
    (SendText clientConnected []).1 = true ∧
    (SendText clientConnected []).2.1.sendQueue =
      clientConnected.sendQueue ++
        [⟨List.replicate LWS_PRE 0, MessageType.Text⟩] ∧
    (SendText clientConnected []).2.1.sendQueue.length =
      clientConnected.sendQueue.length + 1 :=
  tally_C7_send_empty_text clientConnected rfl

/-- Claim C8: a Connect from Disconnected that fails after the Connecting
transition (URL parse failure or connection start failure) returns false and
leaves the session Disconnected with the transport context and handle
released, so a subsequent Connect is permitted (and succeeds when the driver
cooperates). -/
theorem tally_C8_connect_failure_reset (c : Client) (env : TransportEnv)
    (cfg cfg2 : WebSocketConfig)
    (h1 : c.state = ConnectionState.Disconnected)
    (h2 : env.createContextOk = true)
    (h3 : env.parseUriOk = false ∨ env.connectOk = false) :
    (Connect c env cfg).1 = false ∧
    (Connect c env cfg).2.1.state = ConnectionState.Disconnected ∧
    (Connect c env cfg).2.1.context = false ∧
    (Connect c env cfg).2.1.wsi = false ∧
    (Connect (Connect c env cfg).2.1 envOK cfg2).1 = true := by
  have h := Connect_fail_client c env cfg h1 h2 h3
  refine ⟨h.1, ?_, ?_, ?_, ?_⟩
  · rw [h.2.1]
    rfl
  · rw [h.2.1]
    rfl
  · rw [h.2.1]
    rfl
  · exact Connect_from_disconnected_ok _ cfg2 (by rw [h.2.1]; rfl)

/-- Witness for claim C8, at the initial client with a failing connection
start. -/
theorem tally_C8_witness :
    (Connect initialClient envConnFail cfg0).1 = false ∧
    (Connect initialClient envConnFail cfg0).2.1.state =
      ConnectionState.Disconnected ∧
    (Connect initialClient envConnFail cfg0).2.1.context = false ∧
    (Connect initialClient envConnFail cfg0).2.1.wsi = false ∧
    (Connect (Connect initialClient envConnFail cfg0).2.1 envOK cfg0).1 = true :=
  tally_C8_connect_failure_reset initialClient envConnFail cfg0 cfg0
    rfl rfl (Or.inr rfl)

/-- Claim C9: from any state other than Disconnected, Disconnect sets the
state to Disconnecting and invokes the registered state callback; when no
live transport handle exists the effect trace is exactly the state assignment
and the callback, so no close is requested and no further transition is
triggered by the call. -/
theorem tally_C9_disconnect_no_handle (c : Client) (code : Int)
    (reason : List Nat)
    (h1 : c.state ≠ ConnectionState.Disconnected)
    (h2 : c.hasStateCb = true) :
    (Disconnect c code reason).1.state = ConnectionState.Disconnecting ∧
    Effect.stateCb ConnectionState.Disconnecting none ∈
      (Disconnect c code reason).2 ∧
    (c.wsi = false →
      (Disconnect c code reason).2 =
        [Effect.assignState ConnectionState.Disconnecting,
         Effect.stateCb ConnectionState.Disconnecting none]) := by
  by_cases hw : c.wsi <;>
    simp [Disconnect, h1, hw, SetState_client, SetState_effects, h2]

/-- Witness for claim C9, at a client in the Error state with no live
transport handle. -/
theorem tally_C9_witness :
    (Disconnect clientError 1000 []).1.state = ConnectionState.Disconnecting ∧
    Effect.stateCb ConnectionState.Disconnecting none ∈
      (Disconnect clientError 1000 []).2 ∧
    (clientError.wsi = false →
      (Disconnect clientError 1000 []).2 =
        [Effect.assignState ConnectionState.Disconnecting,
         Effect.stateCb ConnectionState.Disconnecting none]) :=
  tally_C9_disconnect_no_handle clientError 1000 [] (by decide) rfl

/-- Claim C10: SetState invokes the registered state callback with the new
state on every invocation, regardless of whether the new state equals the
current one; in particular a transport Closed event arriving while the
session is already Disconnected triggers another Disconnected callback. -/
theorem tally_C10_setstate_callback (c : Client) (s : ConnectionState)
    (err : Option WebSocketError)
    (h1 : c.hasStateCb = true)
    (h2 : c.state = ConnectionState.Disconnected) :
    Effect.stateCb s err ∈ (SetState c s err).2 ∧
    Effect.stateCb ConnectionState.Disconnected none ∈
      (LwsCallback c LwsEvent.closed).2 := by
  constructor
  · simp [SetState_effects, h1]
  · simp [LwsCallback, SetState_effects, h1]

/-- Witness for claim C10, at a Disconnected client: SetState to the same
Disconnected state still invokes the callback, and a Closed event while
Disconnected invokes it again. -/
theorem tally_C10_witness :
    Effect.stateCb ConnectionState.Disconnected none ∈
      (SetState clientDisconnectedCb ConnectionState.Disconnected none).2 ∧
    Effect.stateCb ConnectionState.Disconnected none ∈
      (LwsCallback clientDisconnectedCb LwsEvent.closed).2 :=
  tally_C10_setstate_callback clientDisconnectedCb
    ConnectionState.Disconnected none rfl rfl

end Tally
